import Mathlib

/-!
Verification development for the Fast-chroot CLI shim
(`src/lxc_runtime/runtime.cpp`).

The program is a tiny command-line front-end: it prints a help banner or
invokes an external container-runtime binary through the C `system`
function with a fixed command string, discards the result, and exits 0.

We embed the program as a pure function from the argument list (after the
program name) to an observable trace of events (lines written to standard
output and calls to `system`) together with the process exit code.  The
behaviour of `system` on the fixed command is an oracle parameter
`sys : String → Int`, so theorems quantified over `sys` cover every
possible child outcome, including spawn failure (where `system` returns
`-1`).

The specification additionally describes a Process Supervisor with a
`Launch` operation that the repository does not implement; that component
is modelled from the spec's own words, separately, below.
-/

namespace Chroot

/-- An observable step of the program: a line written to standard output,
or a call to the C function `system` with a command string, recording the
status value the call returned (which the program may then use or
discard). -/
inductive Event where
  | out (line : String)
  | sysCall (cmd : String) (ret : Int)
  deriving Repr, DecidableEq

/-- The fixed shell command string that the function `runtime` in
`runtime.cpp` passes to `system`. -/
def lxcCommand : String := "sudo lxc-start -f config/chroot.conf -n chroot -F"

/-- The function `show_help` from `runtime.cpp`: writes the single banner
line to standard output. -/
def show_help : List Event := [Event.out "LXC Continer prototip"]

/-- The function `runtime` from `runtime.cpp`: prints the start message,
calls `system` on the fixed command `lxcCommand`, discards the returned
status, prints the stop message, and returns.  The parameter `sys` models
the C `system` function: it maps a command string to the status it
returns. -/
def runtime (sys : String → Int) : List Event :=
  [Event.out "Запуск в контейнере",
   Event.sysCall lxcCommand (sys lxcCommand),
   Event.out "Остановка контейнера"]

/-- The function `main` from `runtime.cpp`.  `argv` is the list of
command-line arguments after the program name, so the C++ condition
`args == 1` corresponds to `argv = []`, and `argv[1]` corresponds to the
head of the list.  Returns the trace of observable events paired with the
process exit code. -/
def main (sys : String → Int) (argv : List String) : List Event × Int :=
  match argv with
  | [] => (show_help, 0)
  | action :: _ =>
    if action = "--use-runtime" then (runtime sys, 0)
    else if action = "--help" then (show_help, 0)
    else ([], 0)

/-- Number of `system` invocations recorded in a trace. -/
def sysCallCount (trace : List Event) : Nat :=
  trace.countP fun e =>
    match e with
    | Event.sysCall _ _ => true
    | _ => false

/-- A request to the Process Supervisor, as the spec's data model defines
it: executable path, argument list, working directory. -/
structure LaunchRequest where
  executable : String
  args : List String
  workingDir : String
  deriving Repr, DecidableEq

/-- Outcome of a supervised run, as the spec's data model defines it:
normal termination with an exit code, or an error kind when the process
could not be started or the supervisor was cancelled mid-run. -/
inductive LaunchResult where
  | exited (code : Int)
  | launchFailed
  | interrupted
  deriving Repr, DecidableEq

/-- Environment model for the Supervisor: what the operating system does
when asked to spawn a given executable with a given argument vector —
either the child runs and terminates with an exit code, or it cannot be
spawned (missing executable, permission denied). -/
inductive ChildBehavior where
  | exitsWith (code : Int)
  | cannotSpawn
  deriving Repr, DecidableEq

/-- The spawn action the Supervisor hands to the operating system:
executable path, the discrete argument vector the child receives, and the
working directory.  There is no shell command string anywhere in this
interface. -/
structure SpawnCall where
  exe : String
  argv : List String
  cwd : String
  deriving Repr, DecidableEq

/-- Modelled from the spec: the Process Supervisor's operation
`Launch(request) -> LaunchResult` (spec §4.1) is described by the spec but
not implemented in the source, which instead calls `system` on a fixed
shell string.  Following the spec's words: the Supervisor spawns the
external process directly from the request's executable and discrete
argument list (never a concatenated shell string), blocks until the child
exits and captures its exit code; it signals `launchFailed` when the
executable cannot be found or spawned, and `interrupted` when the
supervisor is asked to cancel before the child exits.  `behave` is the
operating-system oracle and `cancel` says whether cancellation was
requested during the run.  The function returns the spawn call issued to
the operating system together with the structured result surfaced to the
caller; it is total, so it returns on every input. -/
def Launch (behave : String → List String → ChildBehavior) (cancel : Bool)
    (req : LaunchRequest) : SpawnCall × LaunchResult :=
  let call : SpawnCall := ⟨req.executable, req.args, req.workingDir⟩
  match behave req.executable req.args with
  | ChildBehavior.cannotSpawn => (call, LaunchResult.launchFailed)
  | ChildBehavior.exitsWith n =>
    (call, if cancel then LaunchResult.interrupted else LaunchResult.exited n)

/-- C1: For every launch request, the spawn call the Supervisor issues
carries the request's arguments verbatim as a discrete vector — the list
the child receives is exactly `req.args`, element for element, so an
argument containing shell metacharacters reaches the child unchanged —
and the executable is the request's executable; the spawn interface holds
no shell command string, so nothing is shell-interpreted. -/
theorem launch_args_passed_literally
    (behave : String → List String → ChildBehavior) (cancel : Bool)
    (req : LaunchRequest) :
    (Launch behave cancel req).1.argv = req.args ∧
    (Launch behave cancel req).1.exe = req.executable := by
  cases h : behave req.executable req.args <;> simp [Launch, h]

/-- C2: Whenever the first argument is `--use-runtime`, the program calls
`system` on the fixed container-runtime command and then exits with
process exit code 0, for every possible child outcome `sys` (non-zero
exit status and spawn failure included). -/
theorem use_runtime_invokes_and_exits_zero (sys : String → Int)
    (rest : List String) :
    main sys ("--use-runtime" :: rest) =
      ([Event.out "Запуск в контейнере",
        Event.sysCall lxcCommand (sys lxcCommand),
        Event.out "Остановка контейнера"], 0) := by
  simp [main, runtime]

/-- C3: Whenever the child runs (no cancellation) and terminates with a
non-zero exit status `n`, the Supervisor's result surfaced to the caller
is the structured value `exited n`; the status is never discarded. -/
theorem launch_surfaces_nonzero_exit
    (behave : String → List String → ChildBehavior) (req : LaunchRequest)
    (n : Int) (hrun : behave req.executable req.args = ChildBehavior.exitsWith n)
    (_hn : n ≠ 0) :
    (Launch behave false req).2 = LaunchResult.exited n := by
  simp [Launch, hrun]

/-- Witness for C3: a child that runs and exits with status 1 yields the
structured result `exited 1`. -/
theorem launch_surfaces_nonzero_exit_witness :
    (Launch (fun _ _ => ChildBehavior.exitsWith 1) false
      ⟨"/bin/false", [], "/"⟩).2 = LaunchResult.exited 1 :=
  launch_surfaces_nonzero_exit (fun _ _ => ChildBehavior.exitsWith 1)
    ⟨"/bin/false", [], "/"⟩ 1 rfl (by decide)

/-- C4: Whenever the target command runs (no cancellation) and exits with
code `n`, `Launch` returns the result `exited n`. -/
theorem launch_returns_exited
    (behave : String → List String → ChildBehavior) (req : LaunchRequest)
    (n : Int) (hrun : behave req.executable req.args = ChildBehavior.exitsWith n) :
    (Launch behave false req).2 = LaunchResult.exited n := by
  simp [Launch, hrun]

/-- Witness for C4: `Launch` returns `exited n` for children exiting with
the codes 0, 1 and 127. -/
theorem launch_returns_exited_witness :
    (Launch (fun _ _ => ChildBehavior.exitsWith 0) false
      ⟨"/bin/true", [], "/"⟩).2 = LaunchResult.exited 0 ∧
    (Launch (fun _ _ => ChildBehavior.exitsWith 1) false
      ⟨"/bin/false", [], "/"⟩).2 = LaunchResult.exited 1 ∧
    (Launch (fun _ _ => ChildBehavior.exitsWith 127) false
      ⟨"/bin/sh", ["-c", "nosuchcmd"], "/"⟩).2 = LaunchResult.exited 127 :=
  ⟨launch_returns_exited (fun _ _ => ChildBehavior.exitsWith 0)
      ⟨"/bin/true", [], "/"⟩ 0 rfl,
   launch_returns_exited (fun _ _ => ChildBehavior.exitsWith 1)
      ⟨"/bin/false", [], "/"⟩ 1 rfl,
   launch_returns_exited (fun _ _ => ChildBehavior.exitsWith 127)
      ⟨"/bin/sh", ["-c", "nosuchcmd"], "/"⟩ 127 rfl⟩

/-- C5: Whenever the executable cannot be found or spawned, `Launch`
returns the error kind `launchFailed` — whether or not cancellation was
requested — and never a normal `exited` result; `Launch` is a total
function, so it returns on every input rather than blocking. -/
theorem launch_missing_executable_fails
    (behave : String → List String → ChildBehavior) (cancel : Bool)
    (req : LaunchRequest)
    (h : behave req.executable req.args = ChildBehavior.cannotSpawn) :
    (Launch behave cancel req).2 = LaunchResult.launchFailed ∧
    ∀ n : Int, (Launch behave cancel req).2 ≠ LaunchResult.exited n := by
  refine ⟨by simp [Launch, h], ?_⟩
  intro n
  simp [Launch, h]

/-- Witness for C5: a request naming an executable the operating system
cannot spawn yields `launchFailed` and not `exited 0`. -/
theorem launch_missing_executable_fails_witness :
    (Launch (fun _ _ => ChildBehavior.cannotSpawn) false
      ⟨"/no/such/binary", [], "/"⟩).2 = LaunchResult.launchFailed ∧
    (Launch (fun _ _ => ChildBehavior.cannotSpawn) false
      ⟨"/no/such/binary", [], "/"⟩).2 ≠ LaunchResult.exited 0 :=
  ⟨(launch_missing_executable_fails (fun _ _ => ChildBehavior.cannotSpawn)
      false ⟨"/no/such/binary", [], "/"⟩ rfl).1,
   (launch_missing_executable_fails (fun _ _ => ChildBehavior.cannotSpawn)
      false ⟨"/no/such/binary", [], "/"⟩ rfl).2 0⟩

/-- C6: With no arguments, and with `--help` as the first argument, the
program prints exactly the usage banner and exits with process exit
code 0, for every child oracle and every remaining argument list. -/
theorem help_prints_banner_exits_zero (sys : String → Int)
    (rest : List String) :
    main sys [] = ([Event.out "LXC Continer prototip"], 0) ∧
    main sys ("--help" :: rest) = ([Event.out "LXC Continer prototip"], 0) := by
  constructor <;> simp [main, show_help]

/-- C7: In every program invocation the trace contains at most one call to
the external command: the program never retries a launch, so at most one
launch is ever in flight. -/
theorem at_most_one_launch (sys : String → Int) (argv : List String) :
    sysCallCount (main sys argv).1 ≤ 1 := by
  match argv with
  | [] => simp [main, sysCallCount, show_help]
  | a :: rest =>
    by_cases h1 : a = "--use-runtime"
    · simp [main, h1, sysCallCount, runtime]
    · by_cases h2 : a = "--help"
      · simp [main, h1, h2, sysCallCount, show_help]
      · simp [main, h1, h2, sysCallCount]

/-- C8: Whenever the first argument is neither `--help` nor
`--use-runtime`, the program produces an empty trace — no banner, no
error message, no external call — and exits with process exit code 0. -/
theorem unknown_arg_silent_exit_zero (sys : String → Int) (a : String)
    (rest : List String) (h1 : a ≠ "--use-runtime") (h2 : a ≠ "--help") :
    main sys (a :: rest) = ([], 0) := by
  simp [main, h1, h2]

/-- Witness for C8: the unrecognised argument `--foo` yields an empty
trace and exit code 0. -/
theorem unknown_arg_silent_exit_zero_witness :
    main (fun _ => 0) ["--foo"] = ([], 0) :=
  unknown_arg_silent_exit_zero (fun _ => 0) "--foo" [] (by decide) (by decide)

/-- C9: For every child oracle `sys` — success, failure status, or spawn
failure alike — the trace of `runtime` is exactly the start message,
then the external call, then the stop message: both messages are printed
unconditionally, with the start message before the call and the stop
message after it. -/
theorem runtime_message_order (sys : String → Int) :
    runtime sys =
      [Event.out "Запуск в контейнере"] ++
      [Event.sysCall lxcCommand (sys lxcCommand)] ++
      [Event.out "Остановка контейнера"] := by
  simp [runtime]

/-- C10: The program's observable behaviour — trace and exit code — is
determined by the first command-line argument alone: two invocations
agreeing on the first argument but differing in later arguments behave
identically. -/
theorem behavior_depends_only_on_first_arg (sys : String → Int) (a : String)
    (rest rest' : List String) :
    main sys (a :: rest) = main sys (a :: rest') := by
  simp [main]

end Chroot
